import Mathlib

/-!
Verification development for the SweetPeep scene-coordination core
(scene_manager.py and dialogue_engine.py).

The stateful Python code is shallowly embedded as pure state-passing
functions: the persisted scene-state record becomes an explicit
`Option SceneState` value threaded through every operation (`none` models
the empty dictionary that `load_scene_state` yields for a missing, empty
or corrupt file), the dialogue directory becomes an association list from
scene name to parsed graph, and `datetime.utcnow()` becomes an explicit
`now : Nat` parameter. Python falsiness checks on optional strings
(`if not x`) are modelled by `pyTruthy`.
-/

namespace SweetPeep

/-- Python truthiness of an optional string value: None and the empty string
are falsy, every other string is truthy. -/
def pyTruthy : Option String → Bool
  | none => false
  | some s => s != ""

/-- The `next` field of a dialogue node: a single node id, a mapping from
choice label to node id (an association list in insertion order), or a JSON
value of any other type (which `advance_scene` rejects as an invalid format). -/
inductive NextInfo where
  | single (target : String)
  | choices (options : List (String × String))
  | other
deriving DecidableEq

/-- A dialogue node of a scene graph, i.e. one JSON object of the scene file.
Required fields are optional here and checked at the use sites, exactly as the
Python `dict.get` calls do. -/
structure Node where
  speaker : Option String
  text : Option String
  wait : Option Nat
  next : Option NextInfo
deriving DecidableEq

/-- A scene graph: the JSON object mapping node id to node, kept as an
association list in insertion order (the order `dict.values()` iterates in). -/
abbrev Graph := List (String × Node)

/-- The dialogue directory: scene name to parsed graph. A scene file that is
missing or holds malformed JSON has no entry, matching `load_scene_data`
returning None in both cases. -/
abbrev SceneStore := List (String × Graph)

/-- load_scene_data: returns the parsed scene file, or none when the file is
missing or its JSON is invalid. -/
def load_scene_data (scenes : SceneStore) (scene_name : String) : Option Graph :=
  scenes.lookup scene_name

/-- The scene state record persisted in scene_state.json. A key that is absent
from the JSON object, or whose value is null, is `none`. The `none` value of
`Option SceneState` models the empty dictionary (no record at all). -/
structure SceneState where
  scene : Option String
  current_node : Option String
  next_speaker : Option String
  waiting_for_choice : Bool
  scene_active : Bool
  started_at : Option Nat
  ended_at : Option Nat
  stopped_at : Option Nat
deriving DecidableEq

/-- The on-disk condition of scene_state.json: absent, unparseable JSON, or a
stored record (where `none` is the empty dictionary). -/
inductive StateFile where
  | missing
  | corrupt
  | stored (st : Option SceneState)
deriving DecidableEq

/-- load_scene_state: a missing file and a JSON decode error both degrade to
the empty state instead of raising. -/
def load_scene_state : StateFile → Option SceneState
  | .missing => none
  | .corrupt => none
  | .stored st => st

/-- start_scene: validates the scene file, the starting node and its speaker,
then overwrites the whole persisted record. Returns the success flag together
with the record as persisted after the call (unchanged on failure, since every
failing path returns before `save_scene_state`). -/
def start_scene (scenes : SceneStore) (now : Nat) (scene_name : String)
    (starting_node : String) (st : Option SceneState) : Bool × Option SceneState :=
  match load_scene_data scenes scene_name with
  | none => (false, st)
  | some scene_data =>
    if scene_data.isEmpty then (false, st)
    else
      match scene_data.lookup starting_node with
      | none => (false, st)
      | some first_node =>
        if pyTruthy first_node.speaker then
          (true, some { scene := some scene_name
                      , current_node := some starting_node
                      , next_speaker := first_node.speaker
                      , waiting_for_choice := false
                      , scene_active := true
                      , started_at := some now
                      , ended_at := none
                      , stopped_at := none })
        else (false, st)

/-- The four control-flow outcomes of advance_scene. In Python the function
returns the next node data on a successful advance and None in the three
other cases; `AdvOutcome.ret` recovers that return value. -/
inductive AdvOutcome where
  | noScene
  | invalidState
  | terminal
  | advanced (node : Node)
deriving DecidableEq

/-- The Python return value of advance_scene: the next node data on success,
None for the no-active-scene, error and terminal paths alike. -/
def AdvOutcome.ret : AdvOutcome → Option Node
  | .advanced nd => some nd
  | _ => none

/-- Resolution of a non-terminal `next` value: a string is taken as is; a
mapping prefers the "continue" key and otherwise takes its first value in
insertion order (none when the mapping is empty); any other type yields none
(the invalid-format path). -/
def select_next : NextInfo → Option String
  | .single s => some s
  | .choices options =>
    match options.lookup "continue" with
    | some c => some c
    | none => options.head?.map Prod.snd
  | .other => none

/-- advance_scene: moves the active scene to the next node, ends it when the
current node has no `next`, and leaves the record untouched on every failing
path (each returns before `save_scene_state`). -/
def advance_scene (scenes : SceneStore) (now : Nat) (st : Option SceneState) :
    AdvOutcome × Option SceneState :=
  match st with
  | none => (.noScene, st)
  | some state =>
    if !state.scene_active then (.noScene, st)
    else
      match state.scene, state.current_node with
      | some scene_name, some current_node =>
        if scene_name == "" || current_node == "" then (.invalidState, st)
        else
          match load_scene_data scenes scene_name with
          | none => (.invalidState, st)
          | some scene_data =>
            if scene_data.isEmpty then (.invalidState, st)
            else
              match scene_data.lookup current_node with
              | none => (.invalidState, st)
              | some node_data =>
                match node_data.next with
                | none =>
                  (.terminal, some { state with scene_active := false
                                              , current_node := none
                                              , next_speaker := none
                                              , ended_at := some now })
                | some next_info =>
                  match select_next next_info with
                  | none => (.invalidState, st)
                  | some next_node =>
                    if next_node == "" then (.invalidState, st)
                    else
                      match scene_data.lookup next_node with
                      | none => (.invalidState, st)
                      | some next_node_data =>
                        if pyTruthy next_node_data.speaker then
                          (.advanced next_node_data,
                           some { state with current_node := some next_node
                                           , next_speaker := next_node_data.speaker
                                           , waiting_for_choice := false })
                        else (.invalidState, st)
      | _, _ => (.invalidState, st)

/-- stop_scene: succeeds trivially on the empty state without writing;
otherwise deactivates the scene, clears the turn fields and stamps
`stopped_at`. -/
def stop_scene (now : Nat) (st : Option SceneState) : Bool × Option SceneState :=
  match st with
  | none => (true, none)
  | some state =>
    (true, some { state with scene_active := false
                           , current_node := none
                           , next_speaker := none
                           , stopped_at := some now })

/-- The status snapshot returned by get_scene_status (the empty-state branch
returns a record whose only meaningful field is `active := false`). -/
structure SceneStatus where
  active : Bool
  scene : Option String
  current_node : Option String
  next_speaker : Option String
  waiting_for_choice : Bool
  started_at : Option Nat
  ended_at : Option Nat
  stopped_at : Option Nat
deriving DecidableEq

/-- get_scene_status: a pure read that never fails. -/
def get_scene_status (st : Option SceneState) : SceneStatus :=
  match st with
  | none =>
    { active := false, scene := none, current_node := none, next_speaker := none
    , waiting_for_choice := false, started_at := none, ended_at := none
    , stopped_at := none }
  | some state =>
    { active := state.scene_active
    , scene := state.scene
    , current_node := state.current_node
    , next_speaker := state.next_speaker
    , waiting_for_choice := state.waiting_for_choice
    , started_at := state.started_at
    , ended_at := state.ended_at
    , stopped_at := state.stopped_at }

/-- The structural problems validate_scene reports; each constructor stands
for one of the error message templates the Python code appends. The check
that a node value is a dictionary never fires here because `Graph` only
represents scene files whose node values are JSON objects. -/
inductive VErr where
  | sceneNotFound
  | missingStart
  | missingSpeaker (node : String)
  | missingText (node : String)
  | badNext (node : String) (target : String)
  | badChoice (node : String) (choice : String) (target : String)
deriving DecidableEq

/-- The report produced by validate_scene. Python collects `speakers` in a
set; it is kept here as the deduplicated list of declared speakers. -/
structure ValidationResult where
  valid : Bool
  errors : List VErr
  warnings : List VErr
  nodes : Nat
  speakers : List String
deriving DecidableEq

/-- validate_scene: structural check of a scene file (start node present,
every node carries speaker and text, every next target resolves). -/
def validate_scene (scenes : SceneStore) (scene_name : String) : ValidationResult :=
  match load_scene_data scenes scene_name with
  | none => ⟨false, [.sceneNotFound], [], 0, []⟩
  | some scene_data =>
    if scene_data.isEmpty then ⟨false, [.sceneNotFound], [], 0, []⟩
    else
      let startErrs : List VErr :=
        if (scene_data.lookup "start").isSome then [] else [.missingStart]
      let nodeErrs : List VErr := scene_data.flatMap fun p =>
        (match p.2.speaker with
         | none => [VErr.missingSpeaker p.1]
         | some _ => []) ++
        (match p.2.text with
         | none => [VErr.missingText p.1]
         | some _ => []) ++
        (match p.2.next with
         | none => []
         | some (.single t) =>
           if (scene_data.lookup t).isSome then [] else [VErr.badNext p.1 t]
         | some (.choices options) =>
           options.flatMap fun c =>
             if (scene_data.lookup c.2).isSome then [] else [VErr.badChoice p.1 c.1 c.2]
         | some .other => [])
      let errors := startErrs ++ nodeErrs
      ⟨errors.isEmpty, errors, [], scene_data.length,
       (scene_data.filterMap fun p => p.2.speaker).dedup⟩

/-- The observable effects of one participant polling tick
(`_check_and_participate`): the message text handed to the delivery
collaborator (none when nothing was emitted), whether advance_scene was
invoked, and the persisted record after the tick. -/
structure TickResult where
  emitted : Option String
  advance_called : Bool
  state_after : Option SceneState
deriving DecidableEq

/-- The message `_send_dialogue_message` formats and sends for a node. -/
def send_dialogue_message (bot_name : String) (node_data : Node) : String :=
  "**" ++ bot_name ++ ":** " ++ node_data.text.getD ""

/-- The `_perform_dialogue_turn` body: re-resolves the current node from the
scene file, re-checks that its declared speaker is this participant, and only
then emits the text and calls advance_scene; every failed check abandons the
tick without emitting and without advancing. -/
def perform_dialogue_turn (scenes : SceneStore) (now : Nat) (bot_name : String)
    (st : Option SceneState) (state : SceneState) : TickResult :=
  match state.scene, state.current_node with
  | some scene_name, some current_node =>
    if scene_name == "" || current_node == "" then ⟨none, false, st⟩
    else
      match load_scene_data scenes scene_name with
      | none => ⟨none, false, st⟩
      | some scene_data =>
        if scene_data.isEmpty then ⟨none, false, st⟩
        else
          match scene_data.lookup current_node with
          | none => ⟨none, false, st⟩
          | some node_data =>
            if node_data.speaker == some bot_name then
              ⟨some (send_dialogue_message bot_name node_data), true,
               (advance_scene scenes now st).2⟩
            else ⟨none, false, st⟩
  | _, _ => ⟨none, false, st⟩

/-- One `_check_and_participate` tick: reads the shared state, does nothing
when no scene is active or the next speaker is someone else, and otherwise
performs the dialogue turn. -/
def check_and_participate (scenes : SceneStore) (now : Nat) (bot_name : String)
    (st : Option SceneState) : TickResult :=
  match st with
  | none => ⟨none, false, st⟩
  | some state =>
    if !state.scene_active then ⟨none, false, st⟩
    else if state.next_speaker == some bot_name then
      perform_dialogue_turn scenes now bot_name st state
    else ⟨none, false, st⟩

/-- Whether the persisted record currently marks a scene as active. -/
def is_active : Option SceneState → Bool
  | none => false
  | some s => s.scene_active

/-- The state transition of one advance_scene call, ignoring its return. -/
def adv_step (scenes : SceneStore) (now : Nat) (st : Option SceneState) :
    Option SceneState :=
  (advance_scene scenes now st).2

/-- The persisted record after `k` successive advance_scene calls. -/
def adv_iter (scenes : SceneStore) (now : Nat) : Nat → Option SceneState → Option SceneState
  | 0, st => st
  | k + 1, st => adv_iter scenes now k (adv_step scenes now st)

/-- The node id advance_scene would move to from node `n` of graph `g`:
the `next` field resolved through `select_next`; none when the node is
absent, terminal, or its `next` does not resolve. -/
def resolved_next (g : Graph) (n : String) : Option String :=
  match g.lookup n with
  | none => none
  | some nd =>
    match nd.next with
    | none => none
    | some next_info => select_next next_info

/-- Iterated resolved-successor map with explicit step count. -/
def iter_next (g : Graph) : Nat → String → Option String
  | 0, n => some n
  | k + 1, n =>
    match resolved_next g n with
    | none => none
    | some m => iter_next g k m

/-- Decidable acyclicity of the resolved-successor relation of a graph: no
node of the graph returns to itself in between 1 and `g.length` steps. -/
def acyclicb (g : Graph) : Bool :=
  g.all fun p =>
    (List.range g.length).all fun k => iter_next g (k + 1) p.1 != some p.1

/-- Strengthened well-formedness under which advance_scene can never take its
invalid-state path: every node id is nonempty, every speaker is present and
nonempty, every text is present, and every `next` is either absent, a nonempty
existing target id, or a nonempty choice mapping of nonempty existing target
ids (never a value of another type). -/
def strong_wf (g : Graph) : Bool :=
  g.all fun p =>
    p.1 != "" && pyTruthy p.2.speaker && p.2.text.isSome &&
    (match p.2.next with
     | none => true
     | some (.single s) => s != "" && (g.lookup s).isSome
     | some (.choices options) =>
       !options.isEmpty &&
         options.all fun c => c.2 != "" && (g.lookup c.2).isSome
     | some .other => false)

/-- The scene-state invariant: an active record carries scene, current node
and next speaker, and its current node exists in the named graph; an inactive
record has current node and next speaker cleared. -/
def stateInvB (scenes : SceneStore) (st : Option SceneState) : Bool :=
  match st with
  | none => true
  | some s =>
    if s.scene_active then
      match s.scene, s.current_node with
      | some nm, some cn =>
        s.next_speaker.isSome &&
          (match load_scene_data scenes nm with
           | none => false
           | some g => (g.lookup cn).isSome)
      | _, _ => false
    else s.current_node == none && s.next_speaker == none

/-- A run-time description of a healthy active state sitting at node `n` of
graph `g` under scene name `nm`. -/
def GoodAt (nm : String) (g : Graph) (st : Option SceneState) (n : String) : Prop :=
  ∃ s, st = some s ∧ s.scene_active = true ∧ s.scene = some nm ∧
    s.current_node = some n ∧ n ≠ "" ∧ (g.lookup n).isSome

/-- Example graph for the stale-read scenario: one node whose declared
speaker is Alice. -/
def gStale : Graph := [("start", ⟨some "Alice", some "hi", none, none⟩)]

/-- Example store holding `gStale` under the name sc. -/
def envStale : SceneStore := [("sc", gStale)]

/-- Stale state: the record still names Bob as next speaker although the
current node of the graph declares Alice. -/
def stStale : Option SceneState :=
  some ⟨some "sc", some "start", some "Bob", false, true, some 0, none, none⟩

/-- Active record naming a scene that has no file, for exercising failing
start and advance calls. -/
def stOrphan : Option SceneState :=
  some ⟨some "ghost", some "n1", some "A", false, true, some 0, none, none⟩

/-- Example graph whose start node carries a choice mapping in which the
continue key competes with an earlier branch key. -/
def gChoice : Graph :=
  [ ("start", ⟨some "A", some "t", none,
      some (.choices [("yes", "nodeY"), ("continue", "nodeC")])⟩)
  , ("nodeY", ⟨some "Y", some "ty", none, none⟩)
  , ("nodeC", ⟨some "C", some "tc", none, none⟩) ]

/-- Example store holding `gChoice`. -/
def envChoice : SceneStore := [("sc", gChoice)]

/-- Active record sitting at the choice node of `gChoice`. -/
def stChoice : Option SceneState :=
  some ⟨some "sc", some "start", some "A", false, true, some 0, none, none⟩

/-- Two-node linear graph used for the start-overwrite and termination
witnesses. -/
def gLinear : Graph :=
  [ ("start", ⟨some "A", some "hi", none, some (.single "end")⟩)
  , ("end", ⟨some "B", some "bye", none, none⟩) ]

/-- Example store holding `gLinear`. -/
def envLinear : SceneStore := [("sc", gLinear)]

/-- A leftover active record from some earlier scene, to be overwritten by a
fresh start. -/
def stLeftover : Option SceneState :=
  some ⟨some "old", some "n9", some "Z", true, true, some 7, some 8, some 9⟩

/-- Graph that passes validate_scene and has an acyclic successor relation,
yet whose start node carries an empty choice mapping, so advance_scene can
never resolve a next node nor end the scene. -/
def gStuck : Graph := [("start", ⟨some "A", some "t", none, some (.choices [])⟩)]

/-- Example store holding `gStuck`. -/
def envStuck : SceneStore := [("sc", gStuck)]

/-- Graph whose start node is terminal, so the first advance ends the scene. -/
def gTerm : Graph := [("start", ⟨some "A", some "t", none, none⟩)]

/-- Graph whose start node points at a node id that does not exist, so the
first advance fails. -/
def gDangling : Graph := [("start", ⟨some "A", some "t", none, some (.single "nowhere")⟩)]

/-- Store holding both the terminal and the dangling graph. -/
def envRet : SceneStore := [("term", gTerm), ("dangling", gDangling)]

/-- Active record at the start of the terminal graph. -/
def stTerm : Option SceneState :=
  some ⟨some "term", some "start", some "A", false, true, some 0, none, none⟩

/-- Active record at the start of the dangling graph. -/
def stDangling : Option SceneState :=
  some ⟨some "dangling", some "start", some "A", false, true, some 0, none, none⟩

theorem lookup_some_mem {α β : Type} [BEq α] [LawfulBEq α] {l : List (α × β)} {a : α} {b : β}
    (h : l.lookup a = some b) : (a, b) ∈ l := by
  induction l with
  | nil => simp [List.lookup] at h
  | cons p t ih =>
    rw [List.lookup] at h
    by_cases hk : a == p.1
    · simp [hk] at h
      simp [eq_of_beq hk, ← h]
    · simp [hk] at h
      exact List.mem_cons_of_mem _ (ih h)

theorem mem_keys_lookup_isSome {α β : Type} [BEq α] [LawfulBEq α] {l : List (α × β)} {a : α}
    (h : a ∈ l.map Prod.fst) : (l.lookup a).isSome := by
  induction l with
  | nil => simp at h
  | cons p t ih =>
    rw [List.map_cons] at h
    cases hk : (a == p.1) with
    | true => rw [List.lookup, hk]; rfl
    | false =>
      rw [List.lookup, hk]
      rcases List.mem_cons.mp h with h1 | h1
      · exact absurd (beq_iff_eq.mpr h1) (by simp [hk])
      · exact ih h1

theorem lookup_some_mem_keys {α β : Type} [BEq α] [LawfulBEq α] {l : List (α × β)} {a : α} {b : β}
    (h : l.lookup a = some b) : a ∈ l.map Prod.fst :=
  List.mem_map.mpr ⟨(a, b), lookup_some_mem h, rfl⟩

theorem pyTruthy_isSome {o : Option String} (h : pyTruthy o = true) : o.isSome := by
  cases o with
  | none => simp [pyTruthy] at h
  | some s => rfl

theorem start_shape (scenes : SceneStore) (now : Nat) (scene_name starting_node : String)
    (st : Option SceneState) :
    (start_scene scenes now scene_name starting_node st = (false, st)) ∨
    (∃ g nd, load_scene_data scenes scene_name = some g ∧ g.isEmpty = false ∧
      g.lookup starting_node = some nd ∧ pyTruthy nd.speaker = true ∧
      start_scene scenes now scene_name starting_node st =
        (true, some ⟨some scene_name, some starting_node, nd.speaker, false, true,
                     some now, none, none⟩)) := by
  cases hg : load_scene_data scenes scene_name with
  | none => left; simp [start_scene, hg]
  | some g =>
    cases he : g.isEmpty with
    | true => left; simp [start_scene, hg, he]
    | false =>
      cases hnd : g.lookup starting_node with
      | none => left; simp [start_scene, hg, he, hnd]
      | some nd =>
        cases hs : pyTruthy nd.speaker with
        | false => left; simp [start_scene, hg, he, hnd, hs]
        | true =>
          right
          exact ⟨g, nd, rfl, he, hnd, hs, by simp [start_scene, hg, he, hnd, hs]⟩

theorem advance_shape (scenes : SceneStore) (now : Nat) (st : Option SceneState) :
    (advance_scene scenes now st = (.noScene, st)) ∨
    (advance_scene scenes now st = (.invalidState, st)) ∨
    (∃ s, st = some s ∧ s.scene_active = true ∧
      advance_scene scenes now st =
        (.terminal, some { s with scene_active := false, current_node := none,
                                  next_speaker := none, ended_at := some now })) ∨
    (∃ s nm cn g nd ni nn nnd, st = some s ∧ s.scene_active = true ∧
      s.scene = some nm ∧ s.current_node = some cn ∧
      load_scene_data scenes nm = some g ∧ g.lookup cn = some nd ∧
      nd.next = some ni ∧ select_next ni = some nn ∧ nn ≠ "" ∧
      g.lookup nn = some nnd ∧ pyTruthy nnd.speaker = true ∧
      advance_scene scenes now st =
        (.advanced nnd, some { s with current_node := some nn,
                                      next_speaker := nnd.speaker,
                                      waiting_for_choice := false })) := by
  cases st with
  | none => left; rfl
  | some s =>
    cases ha : s.scene_active with
    | false => left; simp [advance_scene, ha]
    | true =>
      cases hsc : s.scene with
      | none => right; left; simp [advance_scene, ha, hsc]
      | some nm =>
        cases hcn : s.current_node with
        | none => right; left; simp [advance_scene, ha, hsc, hcn]
        | some cn =>
          by_cases hemp : (nm == "" || cn == "") = true
          · right; left; simp [advance_scene, ha, hsc, hcn, hemp]
          · cases hg : load_scene_data scenes nm with
            | none => right; left; simp [advance_scene, ha, hsc, hcn, hemp, hg]
            | some g =>
              cases hge : g.isEmpty with
              | true => right; left; simp [advance_scene, ha, hsc, hcn, hemp, hg, hge]
              | false =>
                cases hnd : g.lookup cn with
                | none =>
                  right; left; simp [advance_scene, ha, hsc, hcn, hemp, hg, hge, hnd]
                | some nd =>
                  cases hnx : nd.next with
                  | none =>
                    right; right; left
                    exact ⟨s, rfl, ha,
                      by simp [advance_scene, ha, hsc, hcn, hemp, hg, hge, hnd, hnx]⟩
                  | some ni =>
                    cases hsel : select_next ni with
                    | none =>
                      right; left
                      simp [advance_scene, ha, hsc, hcn, hemp, hg, hge, hnd, hnx, hsel]
                    | some nn =>
                      cases hnn : (nn == "") with
                      | true =>
                        right; left
                        simp [advance_scene, ha, hsc, hcn, hemp, hg, hge, hnd, hnx, hsel, hnn]
                      | false =>
                        cases hnnd : g.lookup nn with
                        | none =>
                          right; left
                          simp [advance_scene, ha, hsc, hcn, hemp, hg, hge, hnd, hnx,
                                hsel, hnn, hnnd]
                        | some nnd =>
                          cases hps : pyTruthy nnd.speaker with
                          | false =>
                            right; left
                            simp [advance_scene, ha, hsc, hcn, hemp, hg, hge, hnd, hnx,
                                  hsel, hnn, hnnd, hps]
                          | true =>
                            right; right; right
                            refine ⟨s, nm, cn, g, nd, ni, nn, nnd, rfl, ha, hsc, hcn, hg,
                              hnd, hnx, hsel, by simpa using hnn, hnnd, hps, ?_⟩
                            simp [advance_scene, ha, hsc, hcn, hemp, hg, hge, hnd, hnx,
                                  hsel, hnn, hnnd, hps]

/-- C2: every coordinator operation (start_scene, advance_scene, stop_scene)
preserves the scene-state invariant: an active persisted record carries the
scene name, the current node and the next speaker, with the current node
existing in the active graph, and an inactive record has current node and
next speaker absent. -/
theorem coordinator_ops_preserve_invariant (scenes : SceneStore) (now : Nat)
    (scene_name starting_node : String) (st : Option SceneState)
    (h : stateInvB scenes st = true) :
    stateInvB scenes (start_scene scenes now scene_name starting_node st).2 = true ∧
    stateInvB scenes (advance_scene scenes now st).2 = true ∧
    stateInvB scenes (stop_scene now st).2 = true := by
  refine ⟨?_, ?_, ?_⟩
  · rcases start_shape scenes now scene_name starting_node st with
      heq | ⟨g, nd, hg, hge, hnd, hs, heq⟩
    · rw [heq]; exact h
    · rw [heq]
      simp [stateInvB, hg, hnd, pyTruthy_isSome hs]
  · rcases advance_shape scenes now st with
      heq | heq | ⟨s, hst, ha, heq⟩ |
      ⟨s, nm, cn, g, nd, ni, nn, nnd, hst, ha, hsc, hcn, hg, hnd, hnx, hsel, hne, hnnd, hps, heq⟩
    · rw [heq]; exact h
    · rw [heq]; exact h
    · rw [heq]; simp [stateInvB]
    · rw [heq]
      simp [stateInvB, ha, hsc, hg, hnnd, pyTruthy_isSome hps]
  · cases st <;> simp [stop_scene, stateInvB]

/-- C2 witness: the invariant is preserved from the empty state under the
empty scene store. -/
theorem coordinator_ops_preserve_invariant_witness :
    stateInvB [] (start_scene [] 0 "sc" "start" none).2 = true ∧
    stateInvB [] (advance_scene [] 0 none).2 = true ∧
    stateInvB [] (stop_scene 0 none).2 = true :=
  coordinator_ops_preserve_invariant [] 0 "sc" "start" none rfl

/-- C3: a failing start_scene and a failing advance_scene leave the persisted
record exactly as it was; no partial transition is written. -/
theorem failed_start_or_advance_leaves_state (scenes : SceneStore) (now : Nat)
    (scene_name starting_node : String) (st : Option SceneState) :
    ((start_scene scenes now scene_name starting_node st).1 = false →
      (start_scene scenes now scene_name starting_node st).2 = st) ∧
    ((advance_scene scenes now st).1 = .invalidState →
      (advance_scene scenes now st).2 = st) := by
  constructor
  · intro hfail
    rcases start_shape scenes now scene_name starting_node st with
      heq | ⟨g, nd, _, _, _, _, heq⟩
    · rw [heq]
    · rw [heq] at hfail; simp at hfail
  · intro hfail
    rcases advance_shape scenes now st with
      heq | heq | ⟨s, hst, ha, heq⟩ |
      ⟨s, nm, cn, g, nd, ni, nn, nnd, hst, ha, hsc, hcn, hg, hnd, hnx, hsel, hne, hnnd, hps, heq⟩
    · rw [heq] at hfail; simp at hfail
    · rw [heq]
    · rw [heq] at hfail; simp at hfail
    · rw [heq] at hfail; simp at hfail

/-- C3 witness: starting an absent scene and advancing a record that names an
absent scene both fail and leave the record untouched. -/
theorem failed_start_or_advance_leaves_state_witness :
    (start_scene [] 0 "ghost" "start" stOrphan).2 = stOrphan ∧
    (advance_scene [] 0 stOrphan).2 = stOrphan :=
  ⟨(failed_start_or_advance_leaves_state [] 0 "ghost" "start" stOrphan).1 (by decide),
   (failed_start_or_advance_leaves_state [] 0 "ghost" "start" stOrphan).2 (by decide)⟩

/-- C5: a successful start_scene replaces the whole persisted record,
whatever it held before: active scene, the starting node as current node,
the speaker of the starting node as next speaker, waiting_for_choice false,
a fresh started_at and cleared ended_at and stopped_at. -/
theorem start_success_overwrites_state (scenes : SceneStore) (now : Nat)
    (scene_name starting_node : String) (st : Option SceneState) (g : Graph) (nd : Node)
    (hg : load_scene_data scenes scene_name = some g) (hne : g.isEmpty = false)
    (hnd : g.lookup starting_node = some nd) (hspk : pyTruthy nd.speaker = true) :
    start_scene scenes now scene_name starting_node st =
      (true, some ⟨some scene_name, some starting_node, nd.speaker, false, true,
                   some now, none, none⟩) := by
  simp [start_scene, hg, hne, hnd, hspk]

/-- C5 witness: starting gLinear over a leftover active record from another
scene yields exactly the fresh record, with no field merged from the old one. -/
theorem start_success_overwrites_state_witness :
    start_scene envLinear 3 "sc" "start" stLeftover =
      (true, some ⟨some "sc", some "start", some "A", false, true, some 3, none, none⟩) :=
  start_success_overwrites_state envLinear 3 "sc" "start" stLeftover gLinear
    ⟨some "A", some "hi", none, some (.single "end")⟩
    (by decide) (by decide) (by decide) (by decide)

/-- C6: advance_scene on an idle state (no record, or an inactive record) is
a no-op: it reports that no scene is active and writes nothing. -/
theorem advance_idle_noop (scenes : SceneStore) (now : Nat) (st : Option SceneState)
    (h : st = none ∨ ∃ s, st = some s ∧ s.scene_active = false) :
    (advance_scene scenes now st).1 = .noScene ∧ (advance_scene scenes now st).2 = st := by
  rcases h with rfl | ⟨s, rfl, hs⟩
  · exact ⟨rfl, rfl⟩
  · constructor <;> simp [advance_scene, hs]

/-- C6 witness: advancing with no state record at all is a no-op. -/
theorem advance_idle_noop_witness :
    (advance_scene envLinear 0 none).1 = .noScene ∧ (advance_scene envLinear 0 none).2 = none :=
  advance_idle_noop envLinear 0 none (Or.inl rfl)

/-- C8: stop_scene is idempotent: it returns success on any prior state,
a second stop also returns success, the resulting record is inactive, and
stopping when no record exists does not create one. -/
theorem stop_scene_idempotent (now1 now2 : Nat) (st : Option SceneState) :
    (stop_scene now1 st).1 = true ∧
    is_active (stop_scene now1 st).2 = false ∧
    (stop_scene now2 (stop_scene now1 st).2).1 = true ∧
    is_active (stop_scene now2 (stop_scene now1 st).2).2 = false ∧
    (stop_scene now1 (none : Option SceneState)).2 = none := by
  cases st <;> simp [stop_scene, is_active]

/-- C9 counterexample: advance_scene does not return three distinguishable
outcomes. Its Python return value is the next node data or None, and the
terminal end of a scene and a failed advance both return None: at stTerm the
call ends the scene, at stDangling it fails, and the two return values are
equal. -/
theorem advance_terminal_and_failure_share_return :
    (advance_scene envRet 1 stTerm).1 = .terminal ∧
    (advance_scene envRet 1 stDangling).1 = .invalidState ∧
    AdvOutcome.ret (advance_scene envRet 1 stTerm).1 =
      AdvOutcome.ret (advance_scene envRet 1 stDangling).1 := by
  decide

/-- C9 amended: advance_scene returns the next node data on a successful
non-terminal advance and None otherwise; a normal end and a failure are
distinguishable only through the persisted record, which a terminal advance
deactivates while a failed advance leaves it unchanged. -/
theorem advance_return_classification (scenes : SceneStore) (now : Nat)
    (st : Option SceneState) :
    (∀ nd, (advance_scene scenes now st).1 = .advanced nd →
      AdvOutcome.ret (advance_scene scenes now st).1 = some nd ∧
        is_active (advance_scene scenes now st).2 = true) ∧
    ((advance_scene scenes now st).1 = .terminal →
      AdvOutcome.ret (advance_scene scenes now st).1 = none ∧
        is_active (advance_scene scenes now st).2 = false) ∧
    ((advance_scene scenes now st).1 = .invalidState →
      AdvOutcome.ret (advance_scene scenes now st).1 = none ∧
        (advance_scene scenes now st).2 = st) ∧
    ((advance_scene scenes now st).1 = .noScene →
      AdvOutcome.ret (advance_scene scenes now st).1 = none ∧
        (advance_scene scenes now st).2 = st) := by
  rcases advance_shape scenes now st with
    heq | heq | ⟨s, hst, ha, heq⟩ |
    ⟨s, nm, cn, g, nd, ni, nn, nnd, hst, ha, hsc, hcn, hg, hnd, hnx, hsel, hne, hnnd, hps, heq⟩ <;>
    rw [heq] <;>
    refine ⟨?_, ?_, ?_, ?_⟩ <;> intro h1 <;> try intro h2
  all_goals simp_all [AdvOutcome.ret, is_active]

/-- C9 amended witness: the terminal advance on stTerm returns None and
deactivates the persisted record. -/
theorem advance_return_classification_witness :
    AdvOutcome.ret (advance_scene envRet 1 stTerm).1 = none ∧
    is_active (advance_scene envRet 1 stTerm).2 = false :=
  (advance_return_classification envRet 1 stTerm).2.1 (by decide)

/-- C1: when a participant tick reads an active state that names the
participant as next speaker, but the current node of the scene graph declares
a different speaker, the tick emits no message, never calls advance_scene and
leaves the record untouched. -/
theorem tick_speaker_mismatch_abandons (scenes : SceneStore) (now : Nat)
    (bot_name nm cn : String) (s : SceneState) (g : Graph) (nd : Node)
    (hact : s.scene_active = true) (hns : s.next_speaker = some bot_name)
    (hsc : s.scene = some nm) (hcn : s.current_node = some cn)
    (hg : load_scene_data scenes nm = some g) (hnd : g.lookup cn = some nd)
    (hsp : nd.speaker ≠ some bot_name) :
    check_and_participate scenes now bot_name (some s) = ⟨none, false, some s⟩ := by
  have hspb : (nd.speaker == some bot_name) = false := by
    simpa using hsp
  by_cases hemp : (nm == "" || cn == "") = true
  · simp [check_and_participate, perform_dialogue_turn, hact, hns, hsc, hcn, hemp]
  · rw [Bool.not_eq_true] at hemp
    cases hge : g.isEmpty with
    | true =>
      simp [check_and_participate, perform_dialogue_turn, hact, hns, hsc, hcn, hemp, hg, hge]
    | false =>
      simp [check_and_participate, perform_dialogue_turn, hact, hns, hsc, hcn, hemp,
            hg, hge, hnd, hspb]

/-- C1 witness: Bob polls a stale record naming him as next speaker while the
current node declares Alice; the tick emits nothing and does not advance. -/
theorem tick_speaker_mismatch_abandons_witness :
    check_and_participate envStale 0 "Bob" stStale = ⟨none, false, stStale⟩ :=
  tick_speaker_mismatch_abandons envStale 0 "Bob" "sc" "start"
    ⟨some "sc", some "start", some "Bob", false, true, some 0, none, none⟩ gStale
    ⟨some "Alice", some "hi", none, none⟩
    rfl rfl rfl rfl (by decide) (by decide) (by decide)

/-- C4: when the current node carries a choice mapping, advance_scene moves
to the node select_next picks, and that pick is the value of the continue key
when one is present and otherwise the first entry in insertion order. -/
theorem advance_choice_continue_precedence (scenes : SceneStore) (now : Nat)
    (st : Option SceneState) (s : SceneState) (nm cn tgt : String) (g : Graph)
    (nd tnd : Node) (options : List (String × String))
    (hst : st = some s) (hact : s.scene_active = true)
    (hsc : s.scene = some nm) (hnm : (nm == "") = false)
    (hcn : s.current_node = some cn) (hcne : (cn == "") = false)
    (hg : load_scene_data scenes nm = some g) (hge : g.isEmpty = false)
    (hnd : g.lookup cn = some nd) (hnx : nd.next = some (.choices options))
    (hsel : select_next (.choices options) = some tgt) (htne : (tgt == "") = false)
    (htnd : g.lookup tgt = some tnd) (hspk : pyTruthy tnd.speaker = true) :
    advance_scene scenes now st =
      (.advanced tnd, some { s with current_node := some tgt,
                                    next_speaker := tnd.speaker,
                                    waiting_for_choice := false }) ∧
    (∀ c, options.lookup "continue" = some c → tgt = c) ∧
    (options.lookup "continue" = none → options.head?.map Prod.snd = some tgt) := by
  refine ⟨?_, ?_, ?_⟩
  · subst hst
    simp [advance_scene, hact, hsc, hcn, hnm, hcne, hg, hge, hnd, hnx, hsel, htne, htnd, hspk]
  · intro c hc
    rw [select_next, hc] at hsel
    simp at hsel
    exact hsel.symm
  · intro hc
    rw [select_next, hc] at hsel
    exact hsel

/-- C4 witness: with next given as the mapping yes to nodeY then continue to
nodeC, advance_scene selects nodeC. -/
theorem advance_choice_continue_precedence_witness :
    advance_scene envChoice 5 stChoice =
      (.advanced ⟨some "C", some "tc", none, none⟩,
       some ⟨some "sc", some "nodeC", some "C", false, true, some 0, none, none⟩) :=
  (advance_choice_continue_precedence envChoice 5 stChoice
    ⟨some "sc", some "start", some "A", false, true, some 0, none, none⟩
    "sc" "start" "nodeC" gChoice
    ⟨some "A", some "t", none, some (.choices [("yes", "nodeY"), ("continue", "nodeC")])⟩
    ⟨some "C", some "tc", none, none⟩ [("yes", "nodeY"), ("continue", "nodeC")]
    rfl rfl rfl (by decide) rfl (by decide) (by decide) (by decide) (by decide) (by decide)
    (by decide) (by decide) (by decide) (by decide)).1

/-- C10: a missing scene-state file and one holding corrupt JSON are both
read as the empty state rather than an error: the status snapshot reports
inactive, advance_scene reports no active scene without writing, and
stop_scene succeeds without writing. -/
theorem missing_or_corrupt_state_treated_empty (scenes : SceneStore) (now : Nat) :
    load_scene_state .missing = none ∧ load_scene_state .corrupt = none ∧
    (get_scene_status (load_scene_state .missing)).active = false ∧
    (get_scene_status (load_scene_state .corrupt)).active = false ∧
    advance_scene scenes now (load_scene_state .missing) = (.noScene, none) ∧
    advance_scene scenes now (load_scene_state .corrupt) = (.noScene, none) ∧
    stop_scene now (load_scene_state .missing) = (true, none) ∧
    stop_scene now (load_scene_state .corrupt) = (true, none) :=
  ⟨rfl, rfl, rfl, rfl, rfl, rfl, rfl, rfl⟩

theorem adv_iter_add (scenes : SceneStore) (now : Nat) (a b : Nat) (st : Option SceneState) :
    adv_iter scenes now (a + b) st = adv_iter scenes now b (adv_iter scenes now a st) := by
  induction a generalizing st with
  | zero => rw [Nat.zero_add]; rfl
  | succ a ih =>
    rw [Nat.add_right_comm]
    show adv_iter scenes now (a + b) (adv_step scenes now st) = _
    rw [ih]
    rfl

theorem inactive_step (scenes : SceneStore) (now : Nat) (st : Option SceneState)
    (h : is_active st = false) : adv_step scenes now st = st := by
  cases st with
  | none => rfl
  | some s =>
    have hs : s.scene_active = false := h
    simp [adv_step, advance_scene, hs]

theorem inactive_iter (scenes : SceneStore) (now : Nat) (k : Nat) (st : Option SceneState)
    (h : is_active st = false) : adv_iter scenes now k st = st := by
  induction k with
  | zero => rfl
  | succ k ih =>
    show adv_iter scenes now k (adv_step scenes now st) = st
    rw [inactive_step scenes now st h]
    exact ih

theorem active_earlier (scenes : SceneStore) (now : Nat) (k i : Nat) (st : Option SceneState)
    (hk : is_active (adv_iter scenes now k st) = true) (hik : i ≤ k) :
    is_active (adv_iter scenes now i st) = true := by
  by_contra hi
  rw [Bool.not_eq_true] at hi
  obtain ⟨d, rfl⟩ := Nat.le.dest hik
  rw [adv_iter_add, inactive_iter scenes now d _ hi] at hk
  rw [hi] at hk
  cases hk

theorem iter_next_add (g : Graph) (a b : Nat) (n : String) :
    iter_next g (a + b) n = (iter_next g a n).bind (iter_next g b) := by
  induction a generalizing n with
  | zero => rw [Nat.zero_add]; rfl
  | succ a ih =>
    rw [Nat.add_right_comm]
    show (match resolved_next g n with
          | none => none
          | some m => iter_next g (a + b) m) = _
    cases hr : resolved_next g n with
    | none => simp [iter_next, hr]
    | some m => simp [iter_next, hr, ih]

theorem strong_wf_spec {g : Graph} (hwf : strong_wf g = true) {n : String} {nd : Node}
    (hnd : g.lookup n = some nd) :
    n ≠ "" ∧ pyTruthy nd.speaker = true ∧
    ∀ ni, nd.next = some ni →
      ∃ m, select_next ni = some m ∧ m ≠ "" ∧ (g.lookup m).isSome := by
  have hmem := lookup_some_mem hnd
  have hp := (List.all_eq_true.mp hwf) (n, nd) hmem
  simp only [Bool.and_eq_true, bne_iff_ne, ne_eq] at hp
  obtain ⟨⟨⟨hn, hs⟩, ht⟩, hnext⟩ := hp
  refine ⟨hn, hs, ?_⟩
  intro ni hni
  rw [hni] at hnext
  cases ni with
  | single s =>
    simp only [Bool.and_eq_true, bne_iff_ne, ne_eq] at hnext
    exact ⟨s, rfl, hnext.1, hnext.2⟩
  | choices options =>
    simp only [Bool.and_eq_true, bne_iff_ne, ne_eq] at hnext
    obtain ⟨hne, hall⟩ := hnext
    cases hc : options.lookup "continue" with
    | some c =>
      have hcm := lookup_some_mem hc
      have hcp := (List.all_eq_true.mp hall) ("continue", c) hcm
      simp only [Bool.and_eq_true, bne_iff_ne, ne_eq] at hcp
      exact ⟨c, by rw [select_next, hc], hcp.1, hcp.2⟩
    | none =>
      cases options with
      | nil => simp at hne
      | cons p t =>
        have hcp := (List.all_eq_true.mp hall) p (List.mem_cons_self p t)
        simp only [Bool.and_eq_true, bne_iff_ne, ne_eq] at hcp
        exact ⟨p.2, by rw [select_next, hc]; rfl, hcp.1, hcp.2⟩
  | other => simp at hnext

theorem good_step (scenes : SceneStore) (now : Nat) (nm : String) (g : Graph)
    (hnm : (nm == "") = false) (hg : load_scene_data scenes nm = some g)
    (hwf : strong_wf g = true) (st : Option SceneState) (n : String)
    (hgood : GoodAt nm g st n) :
    (resolved_next g n = none ∧ is_active (adv_step scenes now st) = false) ∨
    (∃ m, resolved_next g n = some m ∧ GoodAt nm g (adv_step scenes now st) m) := by
  obtain ⟨s, rfl, hact, hsc, hcn, hne, hlk⟩ := hgood
  obtain ⟨nd, hnd⟩ := Option.isSome_iff_exists.mp hlk
  have hnb : (n == "") = false := by simpa using hne
  have hgemp : g.isEmpty = false := by
    cases g with
    | nil => simp [List.lookup] at hnd
    | cons p t => rfl
  obtain ⟨-, hspk, hnxspec⟩ := strong_wf_spec hwf hnd
  cases hnx : nd.next with
  | none =>
    left
    constructor
    · simp only [resolved_next, hnd, hnx]
    · simp [adv_step, advance_scene, hact, hsc, hcn, hnm, hnb, hg, hgemp, hnd, hnx, is_active]
  | some ni =>
    obtain ⟨m, hsel, hmne, hmlk⟩ := hnxspec ni hnx
    obtain ⟨mnd, hmnd⟩ := Option.isSome_iff_exists.mp hmlk
    obtain ⟨-, hmspk, -⟩ := strong_wf_spec hwf hmnd
    right
    have hmb : (m == "") = false := by simpa using hmne
    refine ⟨m, by simp only [resolved_next, hnd, hnx]; exact hsel, ?_⟩
    refine ⟨{ s with current_node := some m, next_speaker := mnd.speaker, waiting_for_choice := false }, ?_, hact, hsc, rfl, hmne, hmlk⟩
    simp [adv_step, advance_scene, hact, hsc, hcn, hnm, hnb, hg, hgemp, hnd, hnx,
          hsel, hmb, hmnd, hmspk]

theorem run_good (scenes : SceneStore) (now : Nat) (nm : String) (g : Graph)
    (hnm : (nm == "") = false) (hg : load_scene_data scenes nm = some g)
    (hwf : strong_wf g = true) :
    ∀ (k : Nat) (st : Option SceneState) (n : String), GoodAt nm g st n →
      is_active (adv_iter scenes now k st) = true →
      ∃ m, iter_next g k n = some m ∧ GoodAt nm g (adv_iter scenes now k st) m := by
  intro k
  induction k with
  | zero => exact fun st n hgood _ => ⟨n, rfl, hgood⟩
  | succ k ih =>
    intro st n hgood hact
    have hact2 : is_active (adv_iter scenes now k (adv_step scenes now st)) = true := hact
    rcases good_step scenes now nm g hnm hg hwf st n hgood with ⟨hres, hinact⟩ | ⟨m, hres, hgood2⟩
    · rw [inactive_iter scenes now k _ hinact, hinact] at hact2
      cases hact2
    · obtain ⟨m2, hit, hgood3⟩ := ih (adv_step scenes now st) m hgood2 hact2
      refine ⟨m2, ?_, hgood3⟩
      show (match resolved_next g n with
            | none => none
            | some m => iter_next g k m) = some m2
      rw [hres]
      exact hit

theorem stateInvB_adv_step (scenes : SceneStore) (now : Nat) (st : Option SceneState)
    (h : stateInvB scenes st = true) : stateInvB scenes (adv_step scenes now st) = true := by
  rcases advance_shape scenes now st with
    heq | heq | ⟨s, hst, ha, heq⟩ |
    ⟨s, nm, cn, g, nd, ni, nn, nnd, hst, ha, hsc, hcn, hg, hnd, hnx, hsel, hne, hnnd, hps, heq⟩ <;>
    rw [adv_step, heq]
  · exact h
  · exact h
  · simp [stateInvB]
  · simp [stateInvB, ha, hsc, hg, hnnd, pyTruthy_isSome hps]

/-- C7 counterexample: a graph can pass validate_scene, have an acyclic
resolved-successor relation and start successfully, yet never reach an
inactive state no matter how many advance_scene calls are made: gStuck has
one node whose next is the empty choice mapping, so after N = 1 calls the
scene is still active (every call fails and leaves the record unchanged). -/
theorem validated_acyclic_graph_never_ends :
    (validate_scene envStuck "sc").valid = true ∧
    acyclicb gStuck = true ∧
    gStuck.length = 1 ∧
    (start_scene envStuck 0 "sc" "start" none).1 = true ∧
    is_active (adv_iter envStuck 0 1 (start_scene envStuck 0 "sc" "start" none).2) = true := by
  decide

/-- C7 amended: for every graph that is well formed in the strengthened sense
(nonempty node ids, nonempty declared speakers, text present, every next
either absent, a nonempty existing target id, or a nonempty choice mapping of
nonempty existing target ids), if the resolved-successor relation is acyclic
then repeatedly calling advance_scene after a successful start reaches an
inactive state within N calls, where N is the node count; and every
advance_scene iteration preserves the scene-state invariant, so a cyclic
graph may loop forever without state corruption. -/
theorem advance_terminates_within_node_count (scenes : SceneStore) (now : Nat)
    (nm : String) (g : Graph)
    (hnm : (nm == "") = false)
    (hg : load_scene_data scenes nm = some g)
    (hwf : strong_wf g = true)
    (hacyc : acyclicb g = true)
    (hstart : (start_scene scenes now nm "start" none).1 = true) :
    is_active (adv_iter scenes now g.length (start_scene scenes now nm "start" none).2) = false ∧
    ∀ (k : Nat) (st : Option SceneState), stateInvB scenes st = true →
      stateInvB scenes (adv_iter scenes now k st) = true := by
  constructor
  · rcases start_shape scenes now nm "start" none with heq | ⟨g2, nd, hg2, hge2, hnd2, hs2, heq⟩
    · rw [heq] at hstart; cases hstart
    · rw [hg] at hg2
      injection hg2 with hg2
      subst hg2
      rw [heq]
      by_contra hact
      rw [Bool.not_eq_false] at hact
      have hNpos : 0 < g.length := List.length_pos_of_mem (lookup_some_mem hnd2)
      have hgood0 : GoodAt nm g
          (some ⟨some nm, some "start", nd.speaker, false, true, some now, none, none⟩)
          "start" :=
        ⟨_, rfl, rfl, rfl, rfl, by decide, by rw [hnd2]; rfl⟩
      have hN : ∀ i, i ≤ g.length →
          is_active (adv_iter scenes now i
            (some ⟨some nm, some "start", nd.speaker, false, true, some now, none, none⟩)) = true :=
        fun i hi => active_earlier scenes now g.length i _ hact hi
      have ht : ∀ i, i ≤ g.length →
          iter_next g i "start" = some ((iter_next g i "start").getD "") ∧
          (iter_next g i "start").getD "" ∈ g.map Prod.fst := by
        intro i hi
        obtain ⟨m, hm, hgd⟩ := run_good scenes now nm g hnm hg hwf i _ "start" hgood0 (hN i hi)
        obtain ⟨s2, -, -, -, -, -, hlk⟩ := hgd
        obtain ⟨b, hb⟩ := Option.isSome_iff_exists.mp hlk
        rw [hm]
        exact ⟨rfl, lookup_some_mem_keys hb⟩
      have key : ∀ a b, a ≤ g.length → b ≤ g.length → a < b →
          (iter_next g a "start").getD "" = (iter_next g b "start").getD "" → False := by
        intro a b ha hb hab he
        have hta := (ht a ha).1
        have htb := (ht b hb).1
        have hdecomp : iter_next g b "start" =
            (iter_next g a "start").bind (iter_next g (b - a)) := by
          rw [← iter_next_add]
          congr 1
          omega
        rw [hta, htb, Option.some_bind] at hdecomp
        have hcyc : iter_next g (b - a) ((iter_next g a "start").getD "") =
            some ((iter_next g a "start").getD "") := by
          rw [← hdecomp, he]
        obtain ⟨p, hp, hp1⟩ := List.mem_map.mp (ht a ha).2
        have hall := List.all_eq_true.mp (List.all_eq_true.mp hacyc p hp)
          (b - a - 1) (List.mem_range.mpr (by omega))
        have h3 : b - a - 1 + 1 = b - a := by omega
        rw [h3, hp1, hcyc] at hall
        simp at hall
      obtain ⟨i, hi, j, hj, hij, heqt⟩ :=
        Finset.exists_ne_map_eq_of_card_lt_of_maps_to
          (s := Finset.range (g.length + 1))
          (t := (g.map Prod.fst).toFinset)
          (by
            have h1 : (g.map Prod.fst).toFinset.card ≤ (g.map Prod.fst).length :=
              List.toFinset_card_le _
            rw [Finset.card_range, List.length_map] at *
            omega)
          (f := fun i => (iter_next g i "start").getD "")
          (fun i hi => List.mem_toFinset.mpr
            ((ht i (Nat.lt_succ_iff.mp (Finset.mem_range.mp hi))).2))
      rcases lt_or_gt_of_ne hij with h | h
      · exact key i j (Nat.lt_succ_iff.mp (Finset.mem_range.mp hi))
          (Nat.lt_succ_iff.mp (Finset.mem_range.mp hj)) h heqt
      · exact key j i (Nat.lt_succ_iff.mp (Finset.mem_range.mp hj))
          (Nat.lt_succ_iff.mp (Finset.mem_range.mp hi)) h heqt.symm
  · intro k st h
    induction k generalizing st with
    | zero => exact h
    | succ k ih =>
      show stateInvB scenes (adv_iter scenes now k (adv_step scenes now st)) = true
      exact ih _ (stateInvB_adv_step scenes now st h)

/-- C7 amended witness: the two-node linear graph gLinear ends within two
advance_scene calls after a successful start. -/
theorem advance_terminates_within_node_count_witness :
    is_active (adv_iter envLinear 0 2 (start_scene envLinear 0 "sc" "start" none).2) = false :=
  (advance_terminates_within_node_count envLinear 0 "sc" gLinear
    (by decide) (by decide) (by decide) (by decide) (by decide)).1

end SweetPeep
